import Mathlib

/-!
Verification of the EmailCountdownTimer server against its design
specification.  The JavaScript sources (src/server.js and an unnamed
second variant, src/unnamed/part_000) are shallowly embedded below:
JS numbers that the program uses as exact values are modelled as ℚ
(fractional inputs) or ℤ/ℕ (integer-valued quantities); the JS `NaN`
value produced by a failed `parseInt` is modelled by `Option ℤ` with
`none` playing the role of `NaN`, which `Math.min`/`Math.max`
propagate.  Instants are integer counts of seconds (for the countdown
arithmetic) or milliseconds (for deadline resolution); the dayjs
parser is abstracted as an explicit function argument returning
`none` for an invalid date.
-/

/-- Decomposition of a duration into days/hours/minutes/seconds,
the record returned by `splitDHMS` in both sources. -/
structure DHMS where
  days : ℕ
  hours : ℕ
  minutes : ℕ
  seconds : ℕ
deriving DecidableEq

/-- Embedding of `splitDHMS` from src/server.js lines 42-49:
`s = Math.max(0, Math.floor(totalSeconds))`, then integer division
and remainder by 86400 / 3600 / 60. -/
def splitDHMS (totalSeconds : ℚ) : DHMS :=
  let s : ℕ := (max 0 ⌊totalSeconds⌋).toNat
  { days := s / 86400
    hours := s % 86400 / 3600
    minutes := s % 3600 / 60
    seconds := s % 60 }

/-- Embedding of `splitDHMS` from src/unnamed/part_000 lines 31-39,
transcribed separately from that file (it is textually the same
algorithm as the src/server.js one). -/
def splitDHMS_alt (totalSeconds : ℚ) : DHMS :=
  let s : ℕ := (max 0 ⌊totalSeconds⌋).toNat
  { days := s / 86400
    hours := s % 86400 / 3600
    minutes := s % 3600 / 60
    seconds := s % 60 }

lemma toNat_max_floor_natCast (n : ℕ) : (max 0 ⌊(n : ℚ)⌋).toNat = n := by
  rw [Int.floor_natCast]
  omega

lemma splitDHMS_natCast (n : ℕ) :
    splitDHMS (n : ℚ) =
      ⟨n / 86400, n % 86400 / 3600, n % 3600 / 60, n % 60⟩ := by
  simp only [splitDHMS, toNat_max_floor_natCast]

lemma splitDHMS_nonpos (x : ℚ) (hx : x ≤ 0) : splitDHMS x = ⟨0, 0, 0, 0⟩ := by
  have h1 : ⌊x⌋ ≤ 0 := by
    have h := Int.floor_mono hx
    simpa using h
  have h2 : (max 0 ⌊x⌋).toNat = 0 := by omega
  simp only [splitDHMS, h2]

/-- C1: for every non-negative integer `s`, `splitDHMS s` satisfies
`days*86400 + hours*3600 + minutes*60 + seconds = s` with
`hours < 24`, `minutes < 60`, `seconds < 60`, and in particular
`splitDHMS 90125 = ⟨1, 1, 2, 5⟩`. -/
theorem splitDHMS_decomposes :
    (∀ n : ℕ,
      (splitDHMS (n : ℚ)).days * 86400 + (splitDHMS (n : ℚ)).hours * 3600 +
        (splitDHMS (n : ℚ)).minutes * 60 + (splitDHMS (n : ℚ)).seconds = n ∧
      (splitDHMS (n : ℚ)).hours < 24 ∧
      (splitDHMS (n : ℚ)).minutes < 60 ∧
      (splitDHMS (n : ℚ)).seconds < 60) ∧
    splitDHMS ((90125 : ℕ) : ℚ) = ⟨1, 1, 2, 5⟩ := by
  constructor
  · intro n
    simp only [splitDHMS_natCast]
    refine ⟨?_, ?_, ?_, ?_⟩ <;> omega
  · rw [splitDHMS_natCast]

/-- C9: `splitDHMS` is total over all (rational-valued) numeric inputs:
it agrees with its own value at `max 0 ⌊s⌋`, and every negative input
yields the all-zero decomposition. -/
theorem splitDHMS_clamps_input (x : ℚ) :
    splitDHMS x = splitDHMS ((max 0 ⌊x⌋ : ℤ) : ℚ) ∧
    (x < 0 → splitDHMS x = ⟨0, 0, 0, 0⟩) := by
  constructor
  · have h1 : ⌊((max 0 ⌊x⌋ : ℤ) : ℚ)⌋ = max 0 ⌊x⌋ := Int.floor_intCast _
    have h2 : max 0 (max 0 ⌊x⌋) = max 0 ⌊x⌋ := by omega
    simp only [splitDHMS, h1, h2]
  · intro hx
    exact splitDHMS_nonpos x (le_of_lt hx)

/-- Witness for C9 at the concrete negative input `-3`. -/
theorem splitDHMS_clamps_input_witness : splitDHMS (-3) = ⟨0, 0, 0, 0⟩ :=
  (splitDHMS_clamps_input (-3)).2 (by norm_num)

/-- C10: the `splitDHMS` implementation of src/server.js and the one of
src/unnamed/part_000 are extensionally equal. -/
theorem splitDHMS_variants_agree : ∀ x : ℚ, splitDHMS x = splitDHMS_alt x :=
  fun _ => rfl

/-- Model of JS `Math.round` on exact rational values:
round half toward positive infinity, i.e. `⌊x + 1/2⌋`. -/
def jsRound (x : ℚ) : ℤ := ⌊x + 1 / 2⌋

/-- Frame count of the animated renderer in src/server.js line 99:
`Math.min(60, Math.max(1, Math.round(fps * 6)))`; `fps` is an integer
(already clamped in `getParams`), so `Math.round(fps * 6) = 6 * fps`. -/
def framesServer (fps : ℕ) : ℕ := min 60 (max 1 (6 * fps))

/-- Per-frame delay in centiseconds, src/server.js line 100:
`Math.round(100 / fps)`. -/
def delayServerCs (fps : ℕ) : ℤ := jsRound (100 / (fps : ℚ))

/-- Per-frame delay in milliseconds, src/server.js line 104:
`enc.setDelay(delayCs * 10)`. -/
def delayServerMs (fps : ℕ) : ℤ := delayServerCs fps * 10

/-- Fixed frame count of src/unnamed/part_000 line 73: `const frames = 180`. -/
def framesPart : ℕ := 180

/-- Fixed per-frame delay of src/unnamed/part_000 line 74: `const delay = 1000`. -/
def delayPartMs : ℕ := 1000

/-- Per-frame remaining values of the src/server.js animation loop
(line 109): `remain = Math.max(0, totalSeconds - i)` for tick `i`,
where `total` is the remaining-seconds value captured once before the
loop.  The whole list is a function of the captured value only — the
wall clock is never re-sampled for `remain`. -/
def gifRemainsServer (total : ℤ) (fps : ℕ) : List ℤ :=
  (List.range (framesServer fps)).map fun (i : ℕ) => max 0 (total - (i : ℤ))

/-- Per-frame remaining values of the src/unnamed/part_000 loop
(line 83): `remain = total - i`, with no clamp of its own. -/
def gifRemainsPart (total : ℤ) : List ℤ :=
  (List.range framesPart).map fun (i : ℕ) => total - (i : ℤ)

/-- Per-frame decompositions of the src/server.js animation for a
target and reference instant measured in integer seconds;
`totalSeconds = Math.max(0, target.diff(now, "second"))`
(src/server.js line 98) is `max 0 (target - now)` at this granularity. -/
def gifFramesServer (target now : ℤ) (fps : ℕ) : List DHMS :=
  (gifRemainsServer (max 0 (target - now)) fps).map fun (r : ℤ) => splitDHMS (r : ℚ)

/-- Per-frame decompositions of the src/unnamed/part_000 animation;
`total = Math.max(0, params.target.diff(dayjs(), "second"))`
(src/unnamed/part_000 line 72). -/
def gifFramesPart (target now : ℤ) : List DHMS :=
  (gifRemainsPart (max 0 (target - now))).map fun (r : ℤ) => splitDHMS (r : ℚ)

/-- C2: when the target instant is at or before the reference instant,
the captured remaining-seconds value is exactly 0, and every frame of
the animated sequence of either source variant shows the decomposition
`⟨0, 0, 0, 0⟩` (in part_000 the per-frame value `total - i` goes
negative, but `splitDHMS` clamps it, so the displayed decomposition is
still all zeros). -/
theorem deadline_passed_frames_zero (target now : ℤ) (fps : ℕ)
    (h : target ≤ now) :
    max 0 (target - now) = 0 ∧
    (∀ d ∈ gifFramesServer target now fps, d = ⟨0, 0, 0, 0⟩) ∧
    (∀ d ∈ gifFramesPart target now, d = ⟨0, 0, 0, 0⟩) := by
  have h0 : max 0 (target - now) = 0 := by omega
  refine ⟨h0, ?_, ?_⟩
  · intro d hd
    rw [gifFramesServer] at hd
    obtain ⟨r, hr, rfl⟩ := List.mem_map.mp hd
    rw [gifRemainsServer] at hr
    obtain ⟨i, hi, rfl⟩ := List.mem_map.mp hr
    apply splitDHMS_nonpos
    have hle : max 0 (max 0 (target - now) - (i : ℤ)) ≤ 0 := by omega
    exact Int.cast_nonpos.mpr hle
  · intro d hd
    rw [gifFramesPart] at hd
    obtain ⟨r, hr, rfl⟩ := List.mem_map.mp hd
    rw [gifRemainsPart] at hr
    obtain ⟨i, hi, rfl⟩ := List.mem_map.mp hr
    apply splitDHMS_nonpos
    have hle : max 0 (target - now) - (i : ℤ) ≤ 0 := by omega
    exact Int.cast_nonpos.mpr hle

/-- Witness for C2 at the concrete instants `target = 0`, `now = 5`
(deadline five seconds in the past) and `fps = 10`. -/
theorem deadline_passed_frames_zero_witness :
    (0 : ℤ) ≤ 5 ∧ max 0 ((0 : ℤ) - 5) = 0 :=
  ⟨by decide, (deadline_passed_frames_zero 0 5 10 (by decide)).1⟩

/-- C4 counterexample: the claim equates the per-frame decrement with
the per-frame display delay in seconds.  In src/server.js with
`fps = 10` the display delay is `round(100/10)*10 = 100` ms, i.e.
`1/10` second per frame, yet the remaining value of frame 1 is `9`
for a captured start of `10` — the code subtracts one whole second per
frame, not one display-delay interval; the claimed value would be
`max 0 (10 - 1*(1/10)) = 99/10 ≠ 9`. -/
theorem remain_tick_mismatch :
    (gifRemainsServer 10 10)[1]? = some 9 ∧
    (delayServerMs 10 : ℚ) / 1000 = 1 / 10 ∧
    max 0 ((10 : ℚ) - 1 * ((delayServerMs 10 : ℚ) / 1000)) = 99 / 10 ∧
    ((9 : ℚ) ≠ 99 / 10) := by
  have hd : delayServerMs 10 = 100 := by
    have : delayServerCs 10 = 10 := by
      norm_num [delayServerCs, jsRound]
    simp [delayServerMs, this]
  refine ⟨?_, ?_, ?_, by norm_num⟩
  · decide
  · rw [hd]; norm_num
  · rw [hd]; norm_num

/-- C4 amended: frame `i`'s remaining value is computed from the single
captured start value and never re-sampled from the wall clock, but the
per-frame decrement is one whole second, independent of the display
delay: in src/server.js it is `max 0 (start - i)` while the display
delay is `round(100/fps)*10` ms; in src/unnamed/part_000 it is
`start - i` with no clamp of its own, and there the display delay is
exactly 1000 ms, so consecutive values differ by exactly one
1-second tick. -/
theorem remain_progression (total : ℤ) (fps i : ℕ)
    (hs : i < framesServer fps) (hp : i < framesPart) :
    (gifRemainsServer total fps)[i]? = some (max 0 (total - (i : ℤ))) ∧
    (gifRemainsPart total)[i]? = some (total - (i : ℤ)) ∧
    delayPartMs = 1000 := by
  refine ⟨?_, ?_, rfl⟩
  · rw [gifRemainsServer, List.getElem?_map, List.getElem?_range hs]
    rfl
  · rw [gifRemainsPart, List.getElem?_map, List.getElem?_range hp]
    rfl

/-- Witness for C4 amended at `total = 100`, `fps = 10`, `i = 3`. -/
theorem remain_progression_witness :
    (gifRemainsServer 100 10)[3]? = some 97 ∧
    (gifRemainsPart 100)[3]? = some 97 := by
  have h := remain_progression 100 10 3 (by decide) (by decide)
  refine ⟨?_, ?_⟩
  · rw [h.1]; norm_num
  · rw [h.2.1]; norm_num

/-- C5 counterexample: the code has no `dur` request parameter at all,
so no request yields a 120-frame sequence.  The one-tick-per-second
variant (src/unnamed/part_000) always produces exactly 180 frames,
and the src/server.js variant produces at most 60 frames (here at its
maximum `fps = 20`). -/
theorem frame_count_not_120 :
    (gifRemainsPart 1000).length = 180 ∧
    (gifRemainsPart 1000).length ≠ 120 ∧
    framesServer 20 = 60 := by
  refine ⟨?_, ?_, rfl⟩ <;>
    simp [gifRemainsPart, framesPart]

/-- C5 amended: the animated renderer ignores any requested duration:
the one-tick-per-second variant (src/unnamed/part_000) always emits
exactly 180 frames, each with delay exactly 1000 ms, and frame `i`'s
remaining value equals frame 0's remaining value minus `i`. -/
theorem frame_count_delay_part (total : ℤ) (i : ℕ) (h : i < framesPart) :
    (gifRemainsPart total).length = 180 ∧
    delayPartMs = 1000 ∧
    (gifRemainsPart total)[i]? = some (total - (i : ℤ)) ∧
    (gifRemainsPart total)[0]? = some total := by
  refine ⟨by simp [gifRemainsPart, framesPart], rfl, ?_, ?_⟩
  · rw [gifRemainsPart, List.getElem?_map, List.getElem?_range h]
    rfl
  · rw [gifRemainsPart, List.getElem?_map,
      List.getElem?_range (by norm_num [framesPart] : 0 < framesPart)]
    simp

/-- Witness for C5 amended at `total = 7`, `i = 2`. -/
theorem frame_count_delay_part_witness :
    (gifRemainsPart 7).length = 180 ∧ (gifRemainsPart 7)[2]? = some 5 := by
  have h := frame_count_delay_part 7 2 (by decide)
  refine ⟨h.1, ?_⟩
  · rw [h.2.2.1]; norm_num

/-- Model of the JS `||` default idiom on an optional string query
parameter (`q.w || "800"`): an absent parameter and the empty string
are falsy and give the default. -/
def jsOr (o : Option String) (d : String) : String :=
  match o with
  | none => d
  | some s => if s = "" then d else s

/-- Model of the whitespace trimming `parseInt` performs on its
argument before reading a sign and digits. -/
def jsTrim (cs : List Char) : List Char :=
  ((cs.dropWhile Char.isWhitespace).reverse.dropWhile Char.isWhitespace).reverse

/-- Optional leading sign of a `parseInt` argument. -/
def jsSign : List Char → ℤ × List Char
  | '-' :: cs => (-1, cs)
  | '+' :: cs => (1, cs)
  | cs => (1, cs)

/-- Numeric value of a list of decimal digit characters. -/
def digitsVal (cs : List Char) : ℕ :=
  cs.foldl (fun a c => a * 10 + (c.toNat - 48)) 0

/-- Model of JS `parseInt(s, 10)`: trim, read an optional sign, then
the longest leading run of decimal digits; if that run is empty the
result is `NaN`, modelled as `none`. -/
def jsParseInt (s : String) : Option ℤ :=
  let t := jsTrim s.data
  let p := jsSign t
  let ds := p.2.takeWhile Char.isDigit
  if ds.isEmpty then none else some (p.1 * digitsVal ds)

/-- JS `Math.min(a, x)` where `x` may be `NaN` (`none`): `NaN`
propagates. -/
def jsMin (a : ℤ) : Option ℤ → Option ℤ
  | none => none
  | some x => some (min a x)

/-- JS `Math.max(a, x)` where `x` may be `NaN` (`none`): `NaN`
propagates. -/
def jsMax (a : ℤ) : Option ℤ → Option ℤ
  | none => none
  | some x => some (max a x)

/-- Width resolution of `getParams` (src/server.js line 24 and
src/unnamed/part_000 line 17, identical):
`Math.max(400, Math.min(2000, parseInt(q.w || "800", 10)))`. -/
def resolveWidth (w : Option String) : Option ℤ :=
  jsMax 400 (jsMin 2000 (jsParseInt (jsOr w "800")))

/-- C3 counterexample: a present but unparseable width parameter is not
replaced by the default 800 — `parseInt` yields `NaN` (`none`), which
propagates through the clamp, so the resolved width is `NaN`, outside
[400, 2000] and unequal to 800. -/
theorem resolveWidth_nan :
    resolveWidth (some "x") = none ∧
    resolveWidth (some "x") ≠ some 800 := by
  constructor <;> decide

/-- C3 amended: when the raw width parameter parses to an integer `n`
the resolved width is `max 400 (min 2000 n)` — in [400, 2000] and equal
to `n` whenever `n` already lies in that range; an absent or empty
parameter falls back to the default string "800" and resolves to 800;
but a present parameter on which `parseInt` fails resolves to `NaN`
(`none`), not to the default. -/
theorem resolveWidth_clamps (w : Option String) (n : ℤ)
    (hn : jsParseInt (jsOr w "800") = some n) :
    resolveWidth w = some (max 400 (min 2000 n)) ∧
    (400 ≤ n → n ≤ 2000 → resolveWidth w = some n) ∧
    resolveWidth none = some 800 ∧
    (∀ v, jsParseInt (jsOr (some v) "800") = none →
      resolveWidth (some v) = none) := by
  refine ⟨?_, ?_, ?_, ?_⟩
  · rw [resolveWidth, hn]
    simp [jsMin, jsMax]
  · intro h4 h2
    rw [resolveWidth, hn]
    simp only [jsMin, jsMax, Option.some.injEq]
    omega
  · decide
  · intro v hv
    rw [resolveWidth, hv]
    rfl

/-- Witness for C3 amended at the in-range input "500". -/
theorem resolveWidth_clamps_witness :
    resolveWidth (some "500") = some 500 :=
  ((resolveWidth_clamps (some "500") 500 (by decide)).2.1
    (by decide) (by decide))

/-- Model of the JS `String.prototype.replace("#", "")` call used for
color parameters: it removes only the FIRST occurrence of the marker
character, anywhere in the string. -/
def replaceFirstHash : List Char → List Char
  | [] => []
  | c :: cs => if c = '#' then cs else c :: replaceFirstHash cs

/-- Color resolution of `getParams` (src/server.js lines 26-28 and
src/unnamed/part_000 lines 19-21, identical pattern for bg/fg/accent):
a marker character is prepended to the raw value (or the default when
the value is absent or empty) after its first marker, if any, was
removed. -/
def normColor (q : Option String) (d : String) : String :=
  "#" ++ String.mk (replaceFirstHash (jsOr q d).data)

/-- Hexadecimal digit test, used only to state the claimed shape of a
normalized color value. -/
def isHexDigit (c : Char) : Bool :=
  c.isDigit || ('a' ≤ c && c ≤ 'f') || ('A' ≤ c && c ≤ 'F')

/-- The shape the claim asserts for every resolved color: exactly one
leading marker character followed by six hexadecimal digits. -/
def hashSixHex (s : String) : Bool :=
  match s.data with
  | '#' :: ds => ds.length == 6 && ds.all isHexDigit
  | _ => false

lemma replaceFirstHash_of_all_hex (ds : List Char)
    (h : ds.all isHexDigit = true) : replaceFirstHash ds = ds := by
  induction ds with
  | nil => rfl
  | cons c cs ih =>
    rw [List.all_cons, Bool.and_eq_true] at h
    have hc : ¬ (c = '#') := by
      intro hc
      rw [hc] at h
      exact absurd h.1 (by decide)
    rw [replaceFirstHash, if_neg hc, ih h.2]

/-- C6 counterexample: a raw color value with two leading markers is
not normalized to one marker plus six hex digits: `bg = "##12AB34"`
resolves to `"##12AB34"` (only the first marker is removed before the
new one is prepended), which does not have the claimed shape. -/
theorem normColor_double_hash :
    normColor (some "##12AB34") "FFFFFF" = "##12AB34" ∧
    hashSixHex (normColor (some "##12AB34") "FFFFFF") = false := by
  constructor <;> decide

/-- C6 amended: the resolver prepends one marker after removing only
the first marker of the raw value (default when absent/empty).  When
the raw value consists of six hex digits, with or without a single
leading marker, the result is exactly one marker followed by those six
digits; other input forms (extra markers, wrong length, non-hex
characters) pass through without validation. -/
theorem normColor_hex_normalized (ds : List Char) (d : String)
    (h6 : ds.length = 6) (hhex : ds.all isHexDigit = true) :
    normColor (some (String.mk ds)) d = String.mk ('#' :: ds) ∧
    normColor (some (String.mk ('#' :: ds))) d = String.mk ('#' :: ds) ∧
    hashSixHex (String.mk ('#' :: ds)) = true := by
  have hne : ¬ (String.mk ds = "") := by
    intro he
    have : ds = [] := congrArg String.data he
    rw [this] at h6
    exact absurd h6 (by decide)
  refine ⟨?_, ?_, ?_⟩
  · rw [normColor, jsOr, if_neg hne]
    rw [show (String.mk ds).data = ds from rfl,
      replaceFirstHash_of_all_hex ds hhex]
    rfl
  · have hne2 : ¬ (String.mk ('#' :: ds) = "") := by
      intro he
      exact absurd (congrArg String.data he) (by simp)
    rw [normColor, jsOr, if_neg hne2]
    rw [show (String.mk ('#' :: ds)).data = '#' :: ds from rfl]
    rw [show replaceFirstHash ('#' :: ds) = ds from rfl]
    rfl
  · rw [hashSixHex]
    simp [h6, hhex]

/-- Witness for C6 amended at the six-hex-digit input "12AB34". -/
theorem normColor_hex_normalized_witness :
    normColor (some "12AB34") "FFFFFF" = "#12AB34" := by
  have h := normColor_hex_normalized ("12AB34".data) "FFFFFF"
    (by decide) (by decide)
  exact h.1

/-- Big font size of `svgMarkup` (src/server.js line 59 and
src/unnamed/part_000 line 44): `Math.floor(height * 0.48)`.  For the
clamped height range the double-precision product rounds to the exact
rational value, so the floor equals `48 * height / 100` in integer
arithmetic. -/
def bigFontSize (height : ℕ) : ℕ := 48 * height / 100

/-- Small (label) font size of `svgMarkup` (src/server.js line 60 and
src/unnamed/part_000 line 45): `Math.floor(height * 0.16)`. -/
def smallFontSize (height : ℕ) : ℕ := 16 * height / 100

/-- Separator opacity of `svgMarkup` (src/server.js line 56 and
src/unnamed/part_000 line 46): `blink ? 0.25 : 1`. -/
def sepOpacity (blink : Bool) : ℚ := if blink then 25 / 100 else 1

/-- Model of `n.toString().padStart(2, "0")`, used for all four
numeric fields (days included, so days may grow past two digits). -/
def pad2 (n : ℕ) : String :=
  if (toString n).length < 2 then "0" ++ toString n else toString n

/-- One positioned text primitive of the generated SVG markup. -/
structure TextPrim where
  x : ℚ
  y : ℚ
  size : ℕ
  content : String
  color : String
  opacity : ℚ
deriving DecidableEq

/-- The seven texts of the big (font-weight 700) group of `svgMarkup`
(src/server.js lines 66-74, src/unnamed/part_000 lines 52-60): the
four padded numeric values anchored at 14%, 40%, 66% and 92% of the
width and the three separator colons between them, all at font size
`bigFontSize height`.  The JS decimals 0.14, 0.58 etc. are the exact
rationals written here. -/
def svgBigTexts (width height : ℕ) (fg accent : String) (d : DHMS)
    (blink : Bool) : List TextPrim :=
  [ ⟨(width : ℚ) * (14 / 100), (height : ℚ) * (58 / 100),
      bigFontSize height, pad2 d.days, fg, 1⟩,
    ⟨(width : ℚ) * (27 / 100), (height : ℚ) * (58 / 100),
      bigFontSize height, ":", accent, sepOpacity blink⟩,
    ⟨(width : ℚ) * (40 / 100), (height : ℚ) * (58 / 100),
      bigFontSize height, pad2 d.hours, fg, 1⟩,
    ⟨(width : ℚ) * (53 / 100), (height : ℚ) * (58 / 100),
      bigFontSize height, ":", accent, sepOpacity blink⟩,
    ⟨(width : ℚ) * (66 / 100), (height : ℚ) * (58 / 100),
      bigFontSize height, pad2 d.minutes, fg, 1⟩,
    ⟨(width : ℚ) * (79 / 100), (height : ℚ) * (58 / 100),
      bigFontSize height, ":", accent, sepOpacity blink⟩,
    ⟨(width : ℚ) * (92 / 100), (height : ℚ) * (58 / 100),
      bigFontSize height, pad2 d.seconds, fg, 1⟩ ]

/-- The four label texts of the small group of `svgMarkup`
(src/server.js lines 76-79, src/unnamed/part_000 lines 62-65). -/
def svgLabelTexts (width height : ℕ) (fg : String) : List TextPrim :=
  [ ⟨(width : ℚ) * (14 / 100), (height : ℚ) * (90 / 100),
      smallFontSize height, "DAYS", fg, 1⟩,
    ⟨(width : ℚ) * (40 / 100), (height : ℚ) * (90 / 100),
      smallFontSize height, "HOURS", fg, 1⟩,
    ⟨(width : ℚ) * (66 / 100), (height : ℚ) * (90 / 100),
      smallFontSize height, "MINUTES", fg, 1⟩,
    ⟨(width : ℚ) * (92 / 100), (height : ℚ) * (90 / 100),
      smallFontSize height, "SECONDS", fg, 1⟩ ]

/-- C7 counterexample: the numeric font size is not the minimum of a
height candidate and a cell-width candidate — no width candidate
exists.  At width 400 (minimum) and height 800 (maximum) with a
three-digit day count, the font size is 384 while the horizontal span
of one cell (the distance between adjacent numeric anchors, 26% of the
width) is only 104, so the size is far larger than anything derived
from the cell width; and the big-group font sizes are identical for
width 2000 with a one-digit day count. -/
theorem font_size_ignores_width :
    bigFontSize 800 = 384 ∧
    (400 : ℚ) * (40 / 100) - (400 : ℚ) * (14 / 100) = 104 ∧
    ¬ (bigFontSize 800 ≤ 104) ∧
    (svgBigTexts 400 800 "#111827" "#6366F1" ⟨100, 0, 0, 0⟩ false).map
        TextPrim.size =
      (svgBigTexts 2000 800 "#111827" "#6366F1" ⟨0, 0, 0, 0⟩ false).map
        TextPrim.size := by
  refine ⟨rfl, by norm_num, by decide, rfl⟩

/-- C7 amended: the numeric font size used for every text of the big
group equals `Math.floor(height * 0.48)`, a function of the canvas
height alone — it does not depend on the canvas width or on the number
of day digits, so wide day counts are not shrunk to fit their cell. -/
theorem font_size_from_height_only (width height : ℕ) (fg accent : String)
    (d : DHMS) (blink : Bool) (t : TextPrim)
    (ht : t ∈ svgBigTexts width height fg accent d blink) :
    t.size = 48 * height / 100 := by
  rw [svgBigTexts] at ht
  simp only [List.mem_cons, List.not_mem_nil, or_false] at ht
  rcases ht with h | h | h | h | h | h | h <;> (rw [h]; rfl)

/-- Witness for C7 amended: the days text of a concrete scene. -/
theorem font_size_from_height_only_witness :
    TextPrim.size
      ⟨((400 : ℕ) : ℚ) * (14 / 100), ((800 : ℕ) : ℚ) * (58 / 100),
        bigFontSize 800, pad2 100, "#111827", 1⟩ = 48 * 800 / 100 :=
  font_size_from_height_only 400 800 "#111827" "#6366F1"
    ⟨100, 0, 0, 0⟩ false _ (List.mem_cons_self _ _)

/-- A parser that rejects every deadline string, used as a concrete
instance of the abstracted dayjs parser. -/
def noParse : String → String → Option ℤ :=
  fun _ _ => none

/-- Target-instant resolution of src/server.js lines 34-38: instants
are integer milliseconds, the dayjs time-zone parser is abstracted as
`parse` (returning `none` for an invalid date, which covers both the
falsy-target and the `!target.isValid()` branch), an empty `to` skips
parsing, and the fallback is `dayjs().tz(timezone).add(24, "hour")`,
i.e. the reference instant plus 86400000 ms. -/
def resolveTarget (parse : String → String → Option ℤ) (toStr tz : String)
    (now : ℤ) : ℤ :=
  match (if toStr = "" then none else parse toStr tz) with
  | some t => t
  | none => now + 86400000

/-- Target-instant resolution of src/unnamed/part_000 lines 25-26,
whose fallback is `dayjs().tz(tz).add(1, "day")`: one calendar day,
which at this model's fixed-offset granularity is the same 86400000 ms
(daylight-saving transitions are outside the model). -/
def resolveTargetAlt (parse : String → String → Option ℤ) (toStr tz : String)
    (now : ℤ) : ℤ :=
  match (if toStr = "" then none else parse toStr tz) with
  | some t => t
  | none => now + 86400000

/-- C8: whenever the deadline string is absent (empty) or does not
parse to a valid instant, both resolvers return normally with the
reference instant plus the 24-hour default horizon; an invalid date
never produces an error or an unresolved target (the resolvers are
total by construction). -/
theorem invalid_deadline_defaults (parse : String → String → Option ℤ)
    (toStr tz : String) (now : ℤ) (h : toStr = "" ∨ parse toStr tz = none) :
    resolveTarget parse toStr tz now = now + 86400000 ∧
    resolveTargetAlt parse toStr tz now = now + 86400000 := by
  have hnone : (if toStr = "" then none else parse toStr tz) = (none : Option ℤ) := by
    rcases h with h | h
    · rw [if_pos h]
    · rw [h, ite_self]
  rw [resolveTarget, resolveTargetAlt, hnone]
  exact ⟨rfl, rfl⟩

/-- Witness for C8 with a parser that rejects the string "nope". -/
theorem invalid_deadline_defaults_witness :
    resolveTarget noParse "nope" "UTC" 0 = 86400000 := by
  have h := invalid_deadline_defaults noParse "nope" "UTC" 0 (Or.inr rfl)
  rw [h.1]
  norm_num
